import Mathlib

/-!
# Verification of the Twilio / WooCommerce Airbyte connector sources

Shallow embedding of the two connector modules
`source_twilio/source.py` and `source_woocommerce/source.py`.

Python JSON-ish values are modelled by `Value`; Python dicts by association
lists with first-match lookup (`List.lookup`) and in-place-update insertion
(`dictUpd`), matching Python dict semantics where keys are unique.
Fallible Python code (code that can raise) is modelled in `Except String`.
-/

set_option autoImplicit false

namespace AirbyteConnectors

/-- A Python/JSON value as manipulated by the connector code: `None`,
strings, integers, string-keyed objects and arrays. -/
inductive Value where
  | vNull
  | vStr (s : String)
  | vInt (n : Int)
  | vObj (fields : List (String × Value))
  | vList (elems : List Value)
  deriving Inhabited, Repr

/-- Python truthiness: `None`, `""`, `0`, `{}` and `[]` are falsy. -/
def pyTruthy : Value → Bool
  | .vNull => false
  | .vStr s => !s.isEmpty
  | .vInt n => n != 0
  | .vObj fields => !fields.isEmpty
  | .vList elems => !elems.isEmpty

mutual

/-- Structural equality on `Value`, modelling Python `==` on these shapes. -/
def valueBeq : Value → Value → Bool
  | .vNull, .vNull => true
  | .vStr a, .vStr b => a == b
  | .vInt a, .vInt b => a == b
  | .vObj a, .vObj b => fieldsBeq a b
  | .vList a, .vList b => elemsBeq a b
  | _, _ => false

def fieldsBeq : List (String × Value) → List (String × Value) → Bool
  | [], [] => true
  | (ka, va) :: as, (kb, vb) :: bs => ka == kb && valueBeq va vb && fieldsBeq as bs
  | _, _ => false

def elemsBeq : List Value → List Value → Bool
  | [], [] => true
  | a :: as, b :: bs => valueBeq a b && elemsBeq as bs
  | _, _ => false

end

/-- A Python dict whose values are JSON values (a record, a JSON body). -/
abbrev Record := List (String × Value)

/-- A Python dict whose values are strings (query parameters, states). -/
abbrev StrDict := List (String × String)

/-- Python `d[k] = v`: replaces the value in place when the key exists,
appends otherwise (insertion order is preserved). -/
def dictUpd {α : Type} (d : List (String × α)) (k : String) (v : α) :
    List (String × α) :=
  if (d.lookup k).isSome then
    d.map (fun p => if p.1 = k then (k, v) else p)
  else
    d ++ [(k, v)]

/-- Python `dict(pairs)`: later pairs override earlier ones. -/
def dictOfList {α : Type} (pairs : List (String × α)) : List (String × α) :=
  pairs.foldl (fun d p => dictUpd d p.1 p.2) []

/-- Value of a hexadecimal digit. -/
def hexDigitVal (c : Char) : Option Nat :=
  if '0' ≤ c ∧ c ≤ '9' then some (c.toNat - '0'.toNat)
  else if 'a' ≤ c ∧ c ≤ 'f' then some (c.toNat - 'a'.toNat + 10)
  else if 'A' ≤ c ∧ c ≤ 'F' then some (c.toNat - 'A'.toNat + 10)
  else none

/-- `urllib.parse.unquote` on a character list: each `%HH` escape becomes
the character with code `HH`; malformed escapes are kept as-is.
(Modelled for single-byte escapes, which covers the query strings these
connectors receive.) -/
def unquoteChars : List Char → List Char
  | [] => []
  | '%' :: a :: b :: rest =>
    match hexDigitVal a, hexDigitVal b with
    | some hi, some lo => Char.ofNat (16 * hi + lo) :: unquoteChars rest
    | _, _ => '%' :: unquoteChars (a :: b :: rest)
  | c :: rest => c :: unquoteChars rest

/-- Python `s.split(sep)` for a one-character separator, on character
lists: `split "" = [""]` and separators delimit (possibly empty) fields. -/
def splitOnChar (sep : Char) : List Char → List (List Char)
  | [] => [[]]
  | c :: rest =>
    let groups := splitOnChar sep rest
    if c = sep then [] :: groups
    else (c :: groups.headD []) :: groups.tail

/-- Python `s.split(sep, 1)` restricted to its outcome: `none` when the
separator does not occur, otherwise the parts before and after its first
occurrence. -/
def splitFirst (sep : Char) : List Char → Option (List Char × List Char)
  | [] => none
  | c :: rest =>
    if c = sep then some ([], rest)
    else (splitFirst sep rest).map (fun p => (c :: p.1, p.2))

/-- Python `s.replace('+', ' ')` (a one-character pattern). -/
def plusToSpace (cs : List Char) : List Char :=
  cs.map (fun c => if c = '+' then ' ' else c)

/-- One `name=value` field of a query string, as `urllib.parse.parse_qsl`
treats it: split on the first `=`; a field without `=` or with an empty
value is dropped (`keep_blank_values=False`); `+` becomes a space and
`%HH` escapes are decoded in both name and value. -/
def parseQslField (field : List Char) : Option (String × String) :=
  match splitFirst '=' field with
  | none => none
  | some (name, value) =>
    if value.isEmpty then none
    else some (String.mk (unquoteChars (plusToSpace name)),
               String.mk (unquoteChars (plusToSpace value)))

/-- `urllib.parse.parse_qsl` with default arguments: split the query string
on `&`, drop empty fields, and parse each remaining field. -/
def parse_qsl (qs : String) : List (String × String) :=
  (splitOnChar '&' qs.data).filterMap fun field =>
    if field.isEmpty then none else parseQslField field

/-- The `query` component produced by `urllib.parse.urlparse`: everything
after the first `?` of the URL, with the fragment (everything after the
first `#`) removed first. -/
def urlparseQuery (url : String) : String :=
  let noFragment := url.data.takeWhile (· ≠ '#')
  match noFragment.dropWhile (· ≠ '?') with
  | [] => ""
  | _ :: query => String.mk query

/-! ## Twilio: `TwilioStream` pagination -/

/-- `TwilioStream.page_size` (class attribute, value 100). -/
def twilioStream_page_size : Int := 100

/--
`TwilioStream.next_page_token`: reads `next_page_uri` from the JSON
response body; when it is truthy, parses the query parameters of that URI
into a dict and returns them; otherwise the function falls through and
returns `None`.  A truthy non-string `next_page_uri` would make
`urlparse` raise, hence the `Except`.
-/
def twilioStream_next_page_token (stream_data : Record) :
    Except String (Option StrDict) :=
  let next_page_uri := (stream_data.lookup "next_page_uri").getD .vNull
  if pyTruthy next_page_uri then
    match next_page_uri with
    | .vStr s => .ok (some (dictOfList (parse_qsl (urlparseQuery s))))
    | _ => .error "TypeError: urlparse expects a string"
  else
    .ok none

/--
`TwilioStream.request_params`: starts from the framework default
(`HttpStream.request_params` returns an empty mapping), sets
`PageSize`, and when the page token is truthy (a non-empty dict) merges
its entries into the params with `dict.update`.
-/
def twilioStream_request_params (next_page_token : Option StrDict) : Record :=
  let params : Record := []
  let params := dictUpd params "PageSize" (.vInt twilioStream_page_size)
  match next_page_token with
  | some tok =>
    if tok.isEmpty then params
    else tok.foldl (fun ps kv => dictUpd ps kv.1 (.vStr kv.2)) params
  | none => params

/-! ## WooCommerce: `WoocommerceStream` pagination -/

/--
`WoocommerceStream.next_page_token`: `response.links` is the mapping the
`requests` library builds from the response's `Link` header, keyed by each
link's `rel` value; we model it as a dict from `rel` to the linked URL
(in `requests` each entry is a dict carrying the URL under `"url"`).
When a `"next"` link is present its URL's query parameters are returned
as a dict; otherwise the function returns `None`.
-/
def woocommerceStream_next_page_token (links : StrDict) : Option StrDict :=
  match links.lookup "next" with
  | some url => some (dictOfList (parse_qsl (urlparseQuery url)))
  | none => none

/-! ## Twilio: `TwilioNestedStream` parent/child slicing -/

/--
One validation step of `TwilioNestedStream.stream_slices`:
`validated = item.get(key) and item.get(key) != value`, truthiness of the
Python expression (the `and` chain is falsy when `item.get(key)` is falsy
or equal to the configured sentinel `value`).
-/
def mediaExistStep (item : Record) (key : String) (value : Value) : Bool :=
  let got := (item.lookup key).getD .vNull
  pyTruthy got && !valueBeq got value

/--
`TwilioNestedStream.stream_slices`, with the parent stream's slice/record
iteration abstracted as the flat list `items` of the records the parent
emits (in emission order, always read in full-refresh mode).  For each
parent record: when `item.get('subresource_uris', {}).get(key)` is truthy
and every `media_exist_validation` entry passes, one slice
`{'subresource_uri': ...}` is yielded.  A `subresource_uris` field that is
present but not an object would make Python's `.get` raise
`AttributeError`; an exception anywhere discards the generator's output,
hence the `Except`.
-/
def twilioNestedStream_stream_slices (media_exist_validation : Record)
    (subresource_uri_key : String) :
    List Record → Except String (List Record)
  | [] => .ok []
  | item :: rest =>
    match (item.lookup "subresource_uris").getD (.vObj []) with
    | .vObj fields =>
      let uri := (fields.lookup subresource_uri_key).getD .vNull
      if pyTruthy uri then
        if media_exist_validation.all
            (fun kv => mediaExistStep item kv.1 kv.2) then
          (twilioNestedStream_stream_slices media_exist_validation
            subresource_uri_key rest).map
            (fun slices => [("subresource_uri", uri)] :: slices)
        else
          twilioNestedStream_stream_slices media_exist_validation
            subresource_uri_key rest
      else
        twilioNestedStream_stream_slices media_exist_validation
          subresource_uri_key rest
    | _ => .error "AttributeError: .get on a non-dict"

/-- `TwilioNestedStream.media_exist_validation` default (empty dict). -/
def twilioNestedStream_media_exist_validation : Record := []

/-- `MessageMedia.media_exist_validation = {"num_media": "0"}`. -/
def messageMedia_media_exist_validation : Record := [("num_media", .vStr "0")]

/-- `MessageMedia.data_field = 'media'`; `subresource_uri_key` defaults to
`data_field`. -/
def messageMedia_subresource_uri_key : String := "media"

/--
`DependentPhoneNumbers.stream_slices`, with the parent (`Addresses`)
iteration abstracted as the flat list of its emitted records: yields
`{'sid': item['sid'], 'account_sid': item['account_sid']}` for every
parent record; the subscript accesses raise `KeyError` when a key is
missing.
-/
def dependentPhoneNumbers_stream_slices :
    List Record → Except String (List Record)
  | [] => .ok []
  | item :: rest =>
    match item.lookup "sid", item.lookup "account_sid" with
    | some sid, some account_sid =>
      (dependentPhoneNumbers_stream_slices rest).map
        (fun slices => [("sid", sid), ("account_sid", account_sid)] :: slices)
    | _, _ => .error "KeyError"

/-! ## Incremental streams: cursor state merge -/

/-- Python `max(a, b)` on strings: the second argument replaces the first
exactly when it is strictly greater. -/
def pymax (a b : String) : String :=
  if a < b then b else a

/-- `IncrementalWoocommerceStream.cursor_field`. -/
def incrementalWoocommerceStream_cursor_field : String := "date_modified_gmt"

/--
`IncrementalWoocommerceStream.get_updated_state`: returns
`{cursor_field: max(latest_record.get(cursor_field, ""),
current_stream_state.get(cursor_field, ""))}`.  States and records are
modelled as string-valued dicts: the cursor field holds ISO-8601 date
strings, for which Python `max` is lexicographic comparison, and a
missing field defaults to `""`.
-/
def incrementalWoocommerceStream_get_updated_state
    (current_stream_state latest_record : StrDict) : StrDict :=
  [(incrementalWoocommerceStream_cursor_field,
    pymax ((latest_record.lookup incrementalWoocommerceStream_cursor_field).getD "")
          ((current_stream_state.lookup incrementalWoocommerceStream_cursor_field).getD ""))]

/-- `IncrementalTwilioStream.get_updated_state`: the unfilled template stub,
which ignores both arguments and returns an empty mapping (`return {}`). -/
def incrementalTwilioStream_get_updated_state
    (current_stream_state latest_record : StrDict) : StrDict :=
  []

/-! ## Sources: `check_connection` and `streams` -/

/-- `SourceTwilio.check_connection`: the unfilled template stub; ignores the
config and returns `(True, None)`. -/
def sourceTwilio_check_connection (config : Record) : Bool × Option String :=
  (true, none)

/-- `SourceWoocommerce.check_connection`: the unfilled template stub;
ignores the config and returns `(True, None)`. -/
def sourceWoocommerce_check_connection (config : Record) :
    Bool × Option String :=
  (true, none)

/-- The per-stream configuration `WoocommerceStream.__init__` stores. -/
structure WoocommerceStreamState where
  url : String
  consumer_key : String
  consumer_secret : String
  start_date : String
  deriving Repr

/--
`WoocommerceStream.__init__(self, url, consumer_key, consumer_secret,
start_date, **kwargs)`: all four parameters are required positional
arguments; calling the constructor without them raises `TypeError`.
Arguments are passed as `Option` to model a call site that omits them.
-/
def woocommerceStream_init (url consumer_key consumer_secret start_date :
    Option String) : Except String WoocommerceStreamState :=
  match url, consumer_key, consumer_secret, start_date with
  | some u, some k, some s, some d => .ok ⟨u, k, s, d⟩
  | _, _, _, _ =>
    .error "TypeError: __init__ missing required positional arguments"

/--
`SourceWoocommerce.streams`: builds a `TokenAuthenticator` and returns
`[Customers(authenticator=auth), Employees(authenticator=auth)]`.
`Customers(authenticator=auth)` passes none of the four required
positional arguments of `WoocommerceStream.__init__`, raising `TypeError`;
the name `Employees` is not defined in the WooCommerce module, so even
with that fixed the next element raises `NameError`.
-/
def sourceWoocommerce_streams (config : Record) :
    Except String (List WoocommerceStreamState) := do
  let customers ← woocommerceStream_init none none none none
  let employees ← .error "NameError: name Employees is not defined"
  .ok [customers, employees]

/-! ## Derived accessors used to state the theorems -/

/-- The sub-resource URI a parent record carries for a given child key
(`item['subresource_uris'][key]`, the value yielded in a child slice). -/
def subresourceUriOf (subresource_uri_key : String) (item : Record) : Value :=
  match (item.lookup "subresource_uris").getD (.vObj []) with
  | .vObj fields => (fields.lookup subresource_uri_key).getD .vNull
  | _ => .vNull

/-- The slice `DependentPhoneNumbers.stream_slices` builds from one parent
record. -/
def dependentSliceOf (item : Record) : Record :=
  [("sid", (item.lookup "sid").getD .vNull),
   ("account_sid", (item.lookup "account_sid").getD .vNull)]

/-- A parent record with a valid sub-resource reference for the child's
`subresource_uri_key` that passes every `media_exist_validation` entry. -/
def validSubresourceItem (media_exist_validation : Record)
    (subresource_uri_key : String) (item : Record) : Prop :=
  (∃ fields, item.lookup "subresource_uris" = some (.vObj fields) ∧
    pyTruthy ((fields.lookup subresource_uri_key).getD .vNull) = true) ∧
  media_exist_validation.all (fun kv => mediaExistStep item kv.1 kv.2) = true

/-- The cursor value a WooCommerce incremental state carries (missing
field defaults to the empty string, the ordering floor). -/
def cursorOf (state : StrDict) : String :=
  (state.lookup incrementalWoocommerceStream_cursor_field).getD ""

/-! ## Helper lemmas -/

theorem le_pymax_left (a b : String) : a ≤ pymax a b := by
  unfold pymax
  by_cases h : a < b
  · rw [if_pos h]; exact le_of_lt h
  · rw [if_neg h]

theorem le_pymax_right (a b : String) : b ≤ pymax a b := by
  unfold pymax
  by_cases h : a < b
  · rw [if_pos h]
  · rw [if_neg h]; exact le_of_not_lt h

theorem pymax_eq_max (a b : String) : pymax a b = max a b := by
  unfold pymax
  rcases lt_or_le a b with h | h
  · rw [if_pos h, max_eq_right h.le]
  · rw [if_neg (not_lt.mpr h), max_eq_left h]

theorem cursorOf_get_updated_state (s r : StrDict) :
    cursorOf (incrementalWoocommerceStream_get_updated_state s r)
      = pymax (cursorOf r) (cursorOf s) := by
  simp [cursorOf, incrementalWoocommerceStream_get_updated_state, List.lookup]

theorem cursorOf_le_foldl (records : List StrDict) (init : StrDict) :
    cursorOf init ≤
      cursorOf (records.foldl incrementalWoocommerceStream_get_updated_state init) := by
  induction records generalizing init with
  | nil => simp
  | cons r rs ih =>
    refine le_trans ?_ (ih (incrementalWoocommerceStream_get_updated_state init r))
    rw [cursorOf_get_updated_state]
    exact le_pymax_right _ _

theorem nested_slices_all_valid (media_exist_validation : Record)
    (subresource_uri_key : String) (items : List Record)
    (h : ∀ item ∈ items,
      validSubresourceItem media_exist_validation subresource_uri_key item) :
    twilioNestedStream_stream_slices media_exist_validation subresource_uri_key items
      = .ok (items.map (fun item =>
          [("subresource_uri", subresourceUriOf subresource_uri_key item)])) := by
  induction items with
  | nil => rfl
  | cons item rest ih =>
    obtain ⟨⟨fields, hf, htruthy⟩, hval⟩ := h item (List.mem_cons_self _ _)
    have hrest := ih (fun i hi => h i (List.mem_cons_of_mem _ hi))
    simp only [twilioNestedStream_stream_slices, hf, Option.getD_some, htruthy,
      hval, if_true, List.map, hrest, Except.map, subresourceUriOf]

theorem dependent_slices_all_valid (items : List Record)
    (h : ∀ item ∈ items,
      (item.lookup "sid").isSome ∧ (item.lookup "account_sid").isSome) :
    dependentPhoneNumbers_stream_slices items
      = .ok (items.map dependentSliceOf) := by
  induction items with
  | nil => rfl
  | cons item rest ih =>
    obtain ⟨hsid, hacc⟩ := h item (List.mem_cons_self _ _)
    have hrest := ih (fun i hi => h i (List.mem_cons_of_mem _ hi))
    obtain ⟨sid, hsid'⟩ := Option.isSome_iff_exists.mp hsid
    obtain ⟨acc, hacc'⟩ := Option.isSome_iff_exists.mp hacc
    simp only [dependentPhoneNumbers_stream_slices, hsid', hacc', List.map,
      hrest, Except.map, dependentSliceOf, Option.getD_some]

/-! ## Claim theorems -/

/-- C1: when the continuation marker is absent or empty — the Twilio
response body has no truthy `next_page_uri`, the WooCommerce response has
no `next` link — `next_page_token` returns `None` (without raising), so
pagination ends after that page. -/
theorem C1_missing_marker_ends_pagination
    (stream_data : Record) (links : StrDict)
    (htwilio : pyTruthy ((stream_data.lookup "next_page_uri").getD .vNull) = false)
    (hwoo : links.lookup "next" = none) :
    twilioStream_next_page_token stream_data = .ok none ∧
    woocommerceStream_next_page_token links = none := by
  constructor
  · simp only [twilioStream_next_page_token, htwilio, Bool.false_eq_true, if_false]
  · simp only [woocommerceStream_next_page_token, hwoo]

/-- C1 witness: a Twilio body without `next_page_uri` and a WooCommerce
response without links. -/
theorem C1_missing_marker_ends_pagination_witness :
    pyTruthy ((([("calls", Value.vList [])] : Record).lookup "next_page_uri").getD .vNull) = false ∧
    ([] : StrDict).lookup "next" = none ∧
    (twilioStream_next_page_token [("calls", .vList [])] = .ok none ∧
      woocommerceStream_next_page_token [] = none) :=
  ⟨rfl, rfl, C1_missing_marker_ends_pagination [("calls", .vList [])] [] rfl rfl⟩

/-- C2: the merged WooCommerce cursor state is at least both the current
state's and the latest record's cursor value (missing fields read as the
empty-string floor), and along any sequence of records the checkpointed
cursor value never decreases. -/
theorem C2_cursor_merge_monotonic
    (current_stream_state latest_record init : StrDict)
    (records extra : List StrDict) :
    cursorOf current_stream_state ≤
      cursorOf (incrementalWoocommerceStream_get_updated_state
        current_stream_state latest_record) ∧
    cursorOf latest_record ≤
      cursorOf (incrementalWoocommerceStream_get_updated_state
        current_stream_state latest_record) ∧
    cursorOf (records.foldl incrementalWoocommerceStream_get_updated_state init) ≤
      cursorOf ((records ++ extra).foldl
        incrementalWoocommerceStream_get_updated_state init) := by
  refine ⟨?_, ?_, ?_⟩
  · rw [cursorOf_get_updated_state]; exact le_pymax_right _ _
  · rw [cursorOf_get_updated_state]; exact le_pymax_left _ _
  · rw [List.foldl_append]; exact cursorOf_le_foldl _ _

/-- C3 counterexample: `IncrementalTwilioStream.get_updated_state` is a
stub returning the empty mapping, so its cursor value is not the maximum
of the two inputs' cursor values. -/
theorem C3_counterexample_twilio_stub :
    incrementalTwilioStream_get_updated_state
      [("date_modified_gmt", "2021-01-02")] [("date_modified_gmt", "2021-01-01")] = [] ∧
    (incrementalTwilioStream_get_updated_state
      [("date_modified_gmt", "2021-01-02")] [("date_modified_gmt", "2021-01-01")]).lookup
      "date_modified_gmt" ≠ some (max "2021-01-01" "2021-01-02") :=
  ⟨rfl, by decide⟩

/-- C3 (amended): for the WooCommerce incremental stream,
`get_updated_state` returns a mapping whose value at the cursor field is
the maximum of the current state's and the latest record's cursor values
under lexicographic string order, a missing field on either side being
read as the empty-string floor rather than raising. -/
theorem C3_woocommerce_state_is_max
    (current_stream_state latest_record : StrDict) :
    (incrementalWoocommerceStream_get_updated_state
      current_stream_state latest_record).lookup
        incrementalWoocommerceStream_cursor_field
      = some (max
          ((current_stream_state.lookup incrementalWoocommerceStream_cursor_field).getD "")
          ((latest_record.lookup incrementalWoocommerceStream_cursor_field).getD "")) := by
  simp [incrementalWoocommerceStream_get_updated_state, List.lookup,
    pymax_eq_max, max_comm]

/-- C4: when every parent record carries a valid sub-resource reference
(and none fails an exists-predicate), `TwilioNestedStream.stream_slices`
yields exactly one slice per parent record, in parent emission order, and
so does `DependentPhoneNumbers.stream_slices` when every parent record
carries the `sid` and `account_sid` keys it extracts. -/
theorem C4_one_slice_per_parent_record
    (media_exist_validation : Record) (subresource_uri_key : String)
    (items parent_items : List Record)
    (h1 : ∀ item ∈ items,
      validSubresourceItem media_exist_validation subresource_uri_key item)
    (h2 : ∀ item ∈ parent_items,
      (item.lookup "sid").isSome ∧ (item.lookup "account_sid").isSome) :
    twilioNestedStream_stream_slices media_exist_validation subresource_uri_key
        items
      = .ok (items.map (fun item =>
          [("subresource_uri", subresourceUriOf subresource_uri_key item)])) ∧
    dependentPhoneNumbers_stream_slices parent_items
      = .ok (parent_items.map dependentSliceOf) :=
  ⟨nested_slices_all_valid _ _ _ h1, dependent_slices_all_valid _ h2⟩

/-- C4 witness: two valid parent records for the nested stream (default
empty validation) and one for `DependentPhoneNumbers`. -/
theorem C4_one_slice_per_parent_record_witness :
    twilioNestedStream_stream_slices twilioNestedStream_media_exist_validation
        "calls"
        [[("subresource_uris", .vObj [("calls", .vStr "/a/Calls.json")])],
         [("subresource_uris", .vObj [("calls", .vStr "/b/Calls.json")])]]
      = .ok [[("subresource_uri", .vStr "/a/Calls.json")],
             [("subresource_uri", .vStr "/b/Calls.json")]] ∧
    dependentPhoneNumbers_stream_slices
        [[("sid", .vStr "AD1"), ("account_sid", .vStr "AC1")]]
      = .ok [[("sid", .vStr "AD1"), ("account_sid", .vStr "AC1")]] :=
  C4_one_slice_per_parent_record twilioNestedStream_media_exist_validation
    "calls"
    [[("subresource_uris", .vObj [("calls", .vStr "/a/Calls.json")])],
     [("subresource_uris", .vObj [("calls", .vStr "/b/Calls.json")])]]
    [[("sid", .vStr "AD1"), ("account_sid", .vStr "AC1")]]
    (by intro item hi
        simp only [List.mem_cons, List.not_mem_nil, or_false] at hi
        rcases hi with h | h <;>
          exact h ▸ ⟨⟨_, rfl, rfl⟩, rfl⟩)
    (by intro item hi
        simp only [List.mem_cons, List.not_mem_nil, or_false] at hi
        exact hi ▸ ⟨rfl, rfl⟩)

/-- C5: a parent record whose guarded field equals the configured sentinel
(`MessageMedia`: `num_media == "0"`) contributes no child slice, even with
a valid sub-resource reference present. -/
theorem C5_sentinel_suppresses_slice
    (item : Record) (rest : List Record) (fields : List (String × Value))
    (hf : item.lookup "subresource_uris" = some (.vObj fields))
    (huri : pyTruthy ((fields.lookup messageMedia_subresource_uri_key).getD .vNull) = true)
    (hnum : item.lookup "num_media" = some (.vStr "0")) :
    twilioNestedStream_stream_slices messageMedia_media_exist_validation
        messageMedia_subresource_uri_key (item :: rest)
      = twilioNestedStream_stream_slices messageMedia_media_exist_validation
          messageMedia_subresource_uri_key rest := by
  simp [twilioNestedStream_stream_slices, hf, huri,
    messageMedia_media_exist_validation, mediaExistStep, hnum, valueBeq]

/-- C5 witness: a message record with `num_media = "0"` and a valid media
sub-resource reference yields no `MessageMedia` slice. -/
theorem C5_sentinel_suppresses_slice_witness :
    ([("num_media", Value.vStr "0"),
      ("subresource_uris", Value.vObj [("media", Value.vStr "/m1")])] : Record).lookup
        "subresource_uris" = some (.vObj [("media", .vStr "/m1")]) ∧
    pyTruthy ((([("media", Value.vStr "/m1")] : List (String × Value)).lookup
      messageMedia_subresource_uri_key).getD .vNull) = true ∧
    twilioNestedStream_stream_slices messageMedia_media_exist_validation
        messageMedia_subresource_uri_key
        [[("num_media", .vStr "0"),
          ("subresource_uris", .vObj [("media", .vStr "/m1")])]]
      = twilioNestedStream_stream_slices messageMedia_media_exist_validation
          messageMedia_subresource_uri_key [] :=
  ⟨rfl, rfl,
    C5_sentinel_suppresses_slice
      [("num_media", .vStr "0"),
       ("subresource_uris", .vObj [("media", .vStr "/m1")])]
      [] [("media", .vStr "/m1")] rfl rfl rfl⟩

/-- C6: a Twilio `next_page_uri` whose query string is `PageToken=abc`
yields the page token `{"PageToken": "abc"}`, and `request_params` merges
that token with the fixed `PageSize` of 100. -/
theorem C6_pagetoken_merged_with_pagesize :
    twilioStream_next_page_token
        [("next_page_uri", .vStr "/2010-04-01/Accounts/AC1/Calls.json?PageToken=abc")]
      = .ok (some [("PageToken", "abc")]) ∧
    (twilioStream_request_params (some [("PageToken", "abc")])).lookup "PageToken"
      = some (.vStr "abc") ∧
    (twilioStream_request_params (some [("PageToken", "abc")])).lookup "PageSize"
      = some (.vInt 100) :=
  ⟨rfl, rfl, rfl⟩

/-- C7: a WooCommerce response whose `Link` header carries
`rel="next"` to a URL with query `page=2` yields exactly the next-page
parameters `{"page": "2"}`. -/
theorem C7_link_header_page_token :
    woocommerceStream_next_page_token
        [("next", "https://shop.example/wc/v3/orders?page=2")]
      = some [("page", "2")] :=
  rfl

/-- C8 counterexample: both `check_connection` implementations are the
constant function `(True, None)`; in particular a config missing every
required field is not rejected. -/
theorem C8_counterexample_no_validation :
    sourceTwilio_check_connection = (fun _ => (true, none)) ∧
    sourceWoocommerce_check_connection = (fun _ => (true, none)) ∧
    sourceTwilio_check_connection [] = (true, none) ∧
    sourceWoocommerce_check_connection [] = (true, none) :=
  ⟨rfl, rfl, rfl, rfl⟩

/-- C8 (amended): `check_connection` performs no validation of the config
and returns `(True, None)` for every config, including configs missing
required fields. -/
theorem C8_check_connection_always_ok (config : Record) :
    sourceTwilio_check_connection config = (true, none) ∧
    sourceWoocommerce_check_connection config = (true, none) :=
  ⟨rfl, rfl⟩

/-- C9: a parent record whose guarded field is absent (read as `None`) or
falsy contributes no `MessageMedia` child slice, even with a valid
sub-resource reference present. -/
theorem C9_missing_guard_field_suppresses_slice
    (item : Record) (rest : List Record) (fields : List (String × Value))
    (hf : item.lookup "subresource_uris" = some (.vObj fields))
    (huri : pyTruthy ((fields.lookup messageMedia_subresource_uri_key).getD .vNull) = true)
    (hnum : pyTruthy ((item.lookup "num_media").getD .vNull) = false) :
    twilioNestedStream_stream_slices messageMedia_media_exist_validation
        messageMedia_subresource_uri_key (item :: rest)
      = twilioNestedStream_stream_slices messageMedia_media_exist_validation
          messageMedia_subresource_uri_key rest := by
  simp [twilioNestedStream_stream_slices, hf, huri,
    messageMedia_media_exist_validation, mediaExistStep, hnum]

/-- C9 witness: a message record with no `num_media` field and a valid
media sub-resource reference yields no `MessageMedia` slice. -/
theorem C9_missing_guard_field_suppresses_slice_witness :
    ([("subresource_uris", Value.vObj [("media", Value.vStr "/m1")])] : Record).lookup
        "subresource_uris" = some (.vObj [("media", .vStr "/m1")]) ∧
    pyTruthy ((([("media", Value.vStr "/m1")] : List (String × Value)).lookup
      messageMedia_subresource_uri_key).getD .vNull) = true ∧
    pyTruthy ((([("subresource_uris", Value.vObj [("media", Value.vStr "/m1")])] : Record).lookup
      "num_media").getD .vNull) = false ∧
    twilioNestedStream_stream_slices messageMedia_media_exist_validation
        messageMedia_subresource_uri_key
        [[("subresource_uris", .vObj [("media", .vStr "/m1")])]]
      = twilioNestedStream_stream_slices messageMedia_media_exist_validation
          messageMedia_subresource_uri_key [] :=
  ⟨rfl, rfl, rfl,
    C9_missing_guard_field_suppresses_slice
      [("subresource_uris", .vObj [("media", .vStr "/m1")])]
      [] [("media", .vStr "/m1")] rfl rfl rfl⟩

/-- C10: `SourceWoocommerce.streams` raises for every config — the
`Customers(authenticator=auth)` call omits the four required positional
arguments of `WoocommerceStream.__init__` (and `Employees` is undefined in
the module) — so it never returns a list of streams. -/
theorem C10_woocommerce_streams_always_raises (config : Record) :
    sourceWoocommerce_streams config
      = .error "TypeError: __init__ missing required positional arguments" :=
  rfl

end AirbyteConnectors
